import Mathlib

/-!
Verification development for the MindPal session-lifecycle and
reminder-scheduling core.

The definitions below are a shallow embedding of the TypeScript source:

* the reminder side embeds the hook in src/lib (concatenated source)
  around useTaskNotifications: isQuietHours, scheduleTaskNotification,
  scheduleAllTaskNotifications, cancelTaskNotifications;
* the session side embeds src/hooks/useTavusVideo.ts (startLocalVideo,
  stopLocalVideo, createSession, the retry loop of startSession,
  endSession) and the pieces of
  src/components/video/VideoConsultation.tsx the claims reference
  (getElapsedTime, timeRemaining, the auto-end effect,
  handleEndSession with report generation).

Modelling conventions:

* Instants are Int milliseconds since the Unix epoch; the local
  timezone is taken to be UTC, so the local time-of-day of an instant t
  is derived from t.emod 86400000.  The source compares zero-padded
  HH:MM strings lexicographically, which for well-formed strings
  coincides with numeric order on minutes-of-day; quiet-hours bounds
  are therefore represented as minutes-of-day (Nat).
* React state (useState) is snapshot-based: an event-handler invocation
  reads the state snapshot of the render that created it, and setState
  takes effect for later invocations.  Sequential calls are modelled by
  threading the state; two calls issued in the same tick are modelled
  by giving both calls the same snapshot.  Refs (useRef) are live and
  are threaded through every call.
* Outward interactions (getUserMedia, HTTP calls to the provider,
  database writes, toasts, sleeps) are recorded as an explicit effect
  list.
-/

/-! ## Reminder scheduling (useTaskNotifications) -/

inductive NotificationType where
  | reminder
  | overdue
  | completionReminder
deriving Repr, DecidableEq

/-- Quiet-hours window; startM and endM are minutes-of-day standing for
the HH:MM strings of the source. -/
structure QuietHoursCfg where
  enabled : Bool
  startM : Nat
  endM : Nat
deriving Repr, DecidableEq

structure NotificationSettings where
  enabled : Bool
  reminderMinutes : Nat
  overdueEnabled : Bool
  completionReminders : Bool
  emailNotifications : Bool
  quietHours : QuietHoursCfg
deriving Repr, DecidableEq

/-- Ambient context of the scheduling hook: auth state, connectivity,
the loaded settings, and the wall-clock instant at which the scheduling
code runs (each new Date() in the source). -/
structure SchedCtx where
  userPresent : Bool
  isConnectedToSupabase : Bool
  settings : NotificationSettings
  now : Int
deriving Repr, DecidableEq

/-- Local time-of-day of an instant, in minutes (getHours/getMinutes). -/
def minuteOfDay (t : Int) : Int :=
  (t.emod 86400000) / 60000

/-- Local midnight of the day containing the instant. -/
def startOfDay (t : Int) : Int :=
  t - t.emod 86400000

/-- isQuietHours of the source: tests whether the CURRENT wall-clock
time-of-day lies in the configured window; both comparisons of the
source are inclusive, and a window with start greater than end wraps
midnight. -/
def isQuietHours (ctx : SchedCtx) : Bool :=
  let q := ctx.settings.quietHours
  if q.enabled = false then false
  else
    let currentTime := minuteOfDay ctx.now
    if (q.startM : Int) > (q.endM : Int) then
      decide (currentTime ≥ (q.startM : Int)) || decide (currentTime ≤ (q.endM : Int))
    else
      decide (currentTime ≥ (q.startM : Int)) && decide (currentTime ≤ (q.endM : Int))

/-- The raw fire instant per notification kind, before the past check
and the quiet-hours adjustment (the switch of scheduleTaskNotification). -/
def computeScheduledForRaw (ctx : SchedCtx) (dueDate : Int) : NotificationType → Int
  | NotificationType.reminder => dueDate - (ctx.settings.reminderMinutes : Int) * 60000
  | NotificationType.overdue => dueDate + 3600000
  | NotificationType.completionReminder => ctx.now + 86400000

/-- The instant quietHours.end on the day scheduling runs: the source
builds it from new Date() and setHours(endHour, endMinute, 0, 0). -/
def quietEndToday (ctx : SchedCtx) : Int :=
  startOfDay ctx.now + (ctx.settings.quietHours.endM : Int) * 60000

/-- One persisted task_notifications row. -/
structure TaskNotificationRow where
  task_id : String
  notification_type : NotificationType
  scheduled_for : Int
  sent : Bool
  email_sent : Bool
deriving Repr, DecidableEq

/-- scheduleTaskNotification of the source.  Returns the persisted row,
or none when the call returns early (missing user, disabled master
flag, connection down, or a fire time in the past); every early return
of the source is silent. -/
def scheduleTaskNotification (ctx : SchedCtx) (taskId : String)
    (dueDate : Int) (ntype : NotificationType) : Option TaskNotificationRow :=
  if !ctx.userPresent || !ctx.settings.enabled || !ctx.isConnectedToSupabase then none
  else
    let scheduledFor := computeScheduledForRaw ctx dueDate ntype
    if scheduledFor ≤ ctx.now then none
    else
      let adjusted :=
        if isQuietHours ctx then
          if scheduledFor < quietEndToday ctx then quietEndToday ctx else scheduledFor
        else scheduledFor
      some { task_id := taskId, notification_type := ntype,
             scheduled_for := adjusted, sent := false, email_sent := false }

/-- scheduleAllTaskNotifications of the source: early return when the
reminder flag of the task is off or the due date is absent, otherwise
one scheduleTaskNotification call per kind whose settings flag is set. -/
def scheduleAllTaskNotifications (ctx : SchedCtx) (taskId : String)
    (dueDate : Option Int) (reminderEnabled : Bool) : List TaskNotificationRow :=
  if !reminderEnabled then []
  else
    match dueDate with
    | none => []
    | some due =>
      (if ctx.settings.enabled then
        (scheduleTaskNotification ctx taskId due NotificationType.reminder).toList
       else [])
      ++ (if ctx.settings.overdueEnabled then
        (scheduleTaskNotification ctx taskId due NotificationType.overdue).toList
       else [])
      ++ (if ctx.settings.completionReminders then
        (scheduleTaskNotification ctx taskId due NotificationType.completionReminder).toList
       else [])

/-- cancelTaskNotifications of the source, acting on the stored rows:
early (silent) return when the user is missing or the connection is
down; otherwise deletes the unsent rows of the task, keeping rows of
other tasks and rows already sent. -/
def cancelTaskNotifications (ctx : SchedCtx) (rows : List TaskNotificationRow)
    (taskId : String) : List TaskNotificationRow :=
  if !ctx.userPresent || !ctx.isConnectedToSupabase then rows
  else rows.filter (fun n => !(n.task_id == taskId && n.sent == false))

/-- The fire instant after the past check would have let it through and
after the quiet-hours adjustment; used to state the discard claim. -/
def adjustedFireTime (ctx : SchedCtx) (dueDate : Int) (ntype : NotificationType) : Int :=
  let raw := computeScheduledForRaw ctx dueDate ntype
  if isQuietHours ctx then
    if raw < quietEndToday ctx then quietEndToday ctx else raw
  else raw

/-! ## Session lifecycle (useTavusVideo and VideoConsultation) -/

structure TavusSession where
  session_id : String
  session_url : String
deriving Repr, DecidableEq

/-- Outcome of one HTTP attempt against the provider. -/
inductive ProviderResult where
  | success (s : TavusSession)
  | failure (status : Nat) (message : String)
deriving Repr, DecidableEq

/-- Ambient environment of the session hook: auth, connectivity, the
configured API key, whether getUserMedia succeeds, and the provider's
response to the i-th createSession attempt. -/
structure SessionEnv where
  userPresent : Bool
  isConnectedToSupabase : Bool
  apiKeyPresent : Bool
  isOnline : Bool
  mediaOk : Bool
  provider : Nat → ProviderResult

/-- Outward-visible interactions recorded by the model. -/
inductive Effect where
  | acquireStream
  | stopTracks
  | createSessionCall
  | sleepMs (ms : Nat)
  | providerEndCall (sid : String)
  | dbInsertSession (sid : String)
  | dbUpdateSession (sid : String) (durationSeconds : Nat)
  | reportInsert (sid : String) (durationSeconds : Nat)
  | errorToast (msg : String)
deriving Repr, DecidableEq

def isStopTracks : Effect → Bool
  | Effect.stopTracks => true
  | _ => false

def isAcquire : Effect → Bool
  | Effect.acquireStream => true
  | _ => false

def isCreateCall : Effect → Bool
  | Effect.createSessionCall => true
  | _ => false

def isSleep : Effect → Bool
  | Effect.sleepMs _ => true
  | _ => false

def isProviderEnd : Effect → Bool
  | Effect.providerEndCall _ => true
  | _ => false

def isDbUpdate : Effect → Bool
  | Effect.dbUpdateSession _ _ => true
  | _ => false

def isReportFor (sid : String) : Effect → Bool
  | Effect.reportInsert s _ => s == sid
  | _ => false

/-- State of the useTavusVideo hook: the useState fields plus the two
refs (timer handle, local media stream).  The stream ref carries only
presence, which is all the claims need. -/
structure HookState where
  isSessionActive : Bool
  sessionData : Option TavusSession
  sessionDuration : Nat
  timerRunning : Bool
  localStream : Option Unit
deriving Repr, DecidableEq

def initialHookState : HookState :=
  { isSessionActive := false, sessionData := none, sessionDuration := 0,
    timerRunning := false, localStream := none }

/-- stopLocalVideo: stops all tracks and clears the ref when a stream
is held; a bare return when the ref is already null. -/
def stopLocalVideo (stream : Option Unit) : Option Unit × List Effect :=
  match stream with
  | some _ => (none, [Effect.stopTracks])
  | none => (none, [])

/-- Whether the first character list is a prefix of the second. -/
def hasPrefixChars : List Char → List Char → Bool
  | [], _ => true
  | _ :: _, [] => false
  | a :: as, b :: bs => a == b && hasPrefixChars as bs

/-- Whether pat occurs as a contiguous run inside the second list. -/
def includesChars (pat : List Char) : List Char → Bool
  | [] => pat.isEmpty
  | c :: rest => hasPrefixChars pat (c :: rest) || includesChars pat rest

/-- The includes test of JS strings: stringIncludes s pat is true when
pat occurs inside s. -/
def stringIncludes (s pat : String) : Bool :=
  includesChars pat.data s.data

/-- The error-message mapping of createSession for a non-ok response
(the status-code cascade of the source). -/
def mapProviderError (status : Nat) (message : String) : String :=
  if status = 400 then
    if stringIncludes message "maximum concurrent conversations" then
      "You already have an active video session. Please wait a few minutes and try again."
    else if stringIncludes message "replica" then
      "Invalid AI replica configuration. Please try again."
    else message
  else if status = 401 then "Invalid API key. Please check your Tavus configuration."
  else if status = 429 then "Rate limit exceeded. Please wait a moment and try again."
  else if status ≥ 500 then "Tavus service is temporarily unavailable. Please try again later."
  else message

/-- createSession of the source: guards on the API key and the network,
then one HTTP attempt.  EVERY failure, of any status, is caught,
surfaced as an error toast, and turned into a null result. -/
def createSession (env : SessionEnv) (attemptIdx : Nat) :
    Option TavusSession × List Effect :=
  if !env.apiKeyPresent then (none, [Effect.errorToast "Tavus API key not configured"])
  else if !env.isOnline then
    (none, [Effect.errorToast "Internet connection required for video sessions"])
  else
    match env.provider attemptIdx with
    | ProviderResult.success s => (some s, [Effect.createSessionCall])
    | ProviderResult.failure st msg =>
      (none, [Effect.createSessionCall, Effect.errorToast (mapProviderError st msg)])

/-- The retry loop of startSession: while no session and retryCount is
below maxRetries, attempt createSession; after a failure that leaves
budget, sleep a fixed 2000 ms and go round again.  fuel is
maxRetries - retryCount. -/
def retryCreate (env : SessionEnv) : Nat → Nat → Option TavusSession × List Effect
  | _, 0 => (none, [])
  | attemptIdx, fuel + 1 =>
    let r := createSession env attemptIdx
    match r.1 with
    | some s => (some s, r.2)
    | none =>
      if fuel = 0 then (none, r.2)
      else
        let rest := retryCreate env (attemptIdx + 1) fuel
        (rest.1, r.2 ++ [Effect.sleepMs 2000] ++ rest.2)

inductive StartOutcome where
  | alreadyActive
  | noUser
  | mediaFailed
  | createFailed
  | started
deriving Repr, DecidableEq

/-- startSession of the source: guard on the active flag of the call's
state snapshot, guard on the user, acquire local media, run the retry
loop (maxRetries = 3), release media if creation failed, otherwise
persist a best-effort audit row, mark active and start the timer. -/
def startSession (env : SessionEnv) (s : HookState) :
    StartOutcome × HookState × List Effect :=
  if s.isSessionActive then (StartOutcome.alreadyActive, s, [])
  else if !env.userPresent then (StartOutcome.noUser, s, [])
  else
    let acq : Option Unit × List Effect :=
      if env.mediaOk then (some (), [Effect.acquireStream]) else (none, [])
    match acq.1 with
    | none => (StartOutcome.mediaFailed, { s with localStream := none }, acq.2)
    | some _ =>
      let r := retryCreate env 0 3
      match r.1 with
      | none =>
        let stop := stopLocalVideo (some ())
        (StartOutcome.createFailed, { s with localStream := stop.1 },
         acq.2 ++ r.2 ++ stop.2)
      | some sess =>
        (StartOutcome.started,
         { s with isSessionActive := true, sessionData := some sess,
                  timerRunning := true, localStream := some () },
         acq.2 ++ r.2 ++ [Effect.dbInsertSession sess.session_id])

/-- endSession of the source: best-effort provider teardown when a
session id is held and the key is configured, best-effort database
update writing the tick-counter duration, unconditional release of the
local stream and timer, then clear the state. -/
def endSession (env : SessionEnv) (s : HookState) : HookState × List Effect :=
  let e1 : List Effect :=
    match s.sessionData with
    | some sd => if env.apiKeyPresent then [Effect.providerEndCall sd.session_id] else []
    | none => []
  let e2 : List Effect :=
    match s.sessionData with
    | some sd =>
      if env.userPresent then [Effect.dbUpdateSession sd.session_id s.sessionDuration]
      else []
    | none => []
  let stop := stopLocalVideo s.localStream
  ({ s with isSessionActive := false, sessionData := none,
            timerRunning := false, localStream := stop.1 },
   e1 ++ e2 ++ stop.2)

/-- One firing of the hook's setInterval callback: increments the
sessionDuration counter by one while the timer is armed. -/
def orchestratorTick (s : HookState) : HookState :=
  if s.timerRunning then { s with sessionDuration := s.sessionDuration + 1 } else s

/-! ### The VideoConsultation component layer -/

/-- Component-level snapshot: the hook state plus sessionStartTime. -/
structure ComponentState where
  hook : HookState
  sessionStartTime : Option Int
deriving Repr, DecidableEq

/-- The fixed session ceiling of the component, in seconds. -/
def maxSessionTime : Int := 900

/-- getElapsedTime of the component: zero without a start time or an
active session, otherwise whole seconds of now minus sessionStartTime
(Math.floor matches Int.fdiv). -/
def getElapsedTime (c : ComponentState) (now : Int) : Int :=
  match c.sessionStartTime with
  | none => 0
  | some st => if c.hook.isSessionActive then (now - st).fdiv 1000 else 0

/-- timeRemaining of the component. -/
def timeRemaining (c : ComponentState) (now : Int) : Int :=
  max 0 (maxSessionTime - getElapsedTime c now)

/-- generateReport of useVideoReports: bails out with a toast when the
user or the connection is missing, otherwise inserts one report row. -/
def generateReport (env : SessionEnv) (sid : String) (durationSeconds : Nat) :
    List Effect :=
  if !env.userPresent || !env.isConnectedToSupabase then
    [Effect.errorToast "Cannot generate report - please check your connection"]
  else [Effect.reportInsert sid durationSeconds]

/-- handleEndSession of the component: run endSession, then, reading
the SNAPSHOT the invocation closed over (not the cleared state), invoke
generateReport when the snapshot held a session and a start time, and
clear sessionStartTime. -/
def handleEndSession (env : SessionEnv) (c : ComponentState) :
    ComponentState × List Effect :=
  let r := endSession env c.hook
  let e2 : List Effect :=
    match c.hook.sessionData, c.sessionStartTime with
    | some sd, some _ => generateReport env sd.session_id c.hook.sessionDuration
    | _, _ => []
  ({ hook := r.1, sessionStartTime := none }, r.2 ++ e2)

/-- One firing of the component's 1-second re-render interval: the
auto-end effect runs handleEndSession when the session is active, a
start time is held, and timeRemaining has reached zero. -/
def componentTick (env : SessionEnv) (c : ComponentState) (now : Int) :
    ComponentState × List Effect :=
  if c.hook.isSessionActive && c.sessionStartTime.isSome &&
      decide (timeRemaining c now ≤ 0) then
    handleEndSession env c
  else (c, [])

/-! ### Whole-lifecycle traces used by the invariant claims -/

/-- Two startSession invocations issued in the same tick: both read the
same state snapshot, because setState commits only after the tick. -/
def twoStartsSameTick (env : SessionEnv) :
    StartOutcome × StartOutcome × List Effect :=
  let r1 := startSession env initialHookState
  let r2 := startSession env initialHookState
  (r1.1, r2.1, r1.2.2 ++ r2.2.2)

/-- The interaction trace of one whole session lifecycle from the idle
state.  When the start fails at any stage the trace ends there; when it
succeeds, mode 0 ends it with one explicit endSession, mode 1 calls
endSession twice in succession, and any other mode ends it through the
ceiling-expiry auto-end tick at the ceiling instant. -/
def lifecycleTrace (env : SessionEnv) (mode : Nat) : List Effect :=
  let r := startSession env initialHookState
  match r.1 with
  | StartOutcome.started =>
    if mode = 0 then
      r.2.2 ++ (endSession env r.2.1).2
    else if mode = 1 then
      let e1 := endSession env r.2.1
      r.2.2 ++ e1.2 ++ (endSession env e1.1).2
    else
      r.2.2 ++ (componentTick env ⟨r.2.1, some 0⟩ (maxSessionTime * 1000)).2
  | _ => r.2.2

/-! ## Concrete instances used by counterexamples and witnesses -/

def quietOvernight : QuietHoursCfg := ⟨true, 1320, 480⟩

def quietDisabled : QuietHoursCfg := ⟨false, 1320, 480⟩

def settingsAllOn (q : QuietHoursCfg) : NotificationSettings :=
  ⟨true, 30, true, true, false, q⟩

/-- Scheduling context at 2025-01-09T12:00Z, quiet hours 22:00 - 08:00. -/
def ctxQuietOn : SchedCtx := ⟨true, true, settingsAllOn quietOvernight, 1736424000000⟩

/-- Scheduling context at 2025-01-09T12:00Z, quiet hours disabled. -/
def ctxQuietOff : SchedCtx := ⟨true, true, settingsAllOn quietDisabled, 1736424000000⟩

/-- Same instant, master enabled flag off. -/
def ctxEnabledOff : SchedCtx :=
  ⟨true, true, { settingsAllOn quietDisabled with enabled := false }, 1736424000000⟩

/-- Same instant, no signed-in user. -/
def ctxNoUser : SchedCtx := ⟨false, true, settingsAllOn quietDisabled, 1736424000000⟩

def rowT1 : TaskNotificationRow :=
  ⟨"t1", NotificationType.reminder, 1736499600000, false, false⟩

def sampleSession : TavusSession := ⟨"sid1", "url1"⟩

/-- Environment in which every provider attempt succeeds at once. -/
def envOk : SessionEnv :=
  ⟨true, true, true, true, true, fun _ => ProviderResult.success sampleSession⟩

/-- Environment in which every provider attempt fails with the 4xx
already-active-conversation response. -/
def envConflict : SessionEnv :=
  ⟨true, true, true, true, true,
   fun _ => ProviderResult.failure 400 "User has reached maximum concurrent conversations"⟩

/-- An active hook state as left by a successful start. -/
def hookActive : HookState :=
  ⟨true, some sampleSession, 0, true, some ()⟩

def compActive : ComponentState := ⟨hookActive, some 0⟩

/-- The user-facing message the source maps a 4xx
already-active-conversation response to. -/
def conflictToast : String :=
  "You already have an active video session. Please wait a few minutes and try again."

/-! ## Helper lemmas -/

/-- Characterization of scheduleTaskNotification through
adjustedFireTime. -/
theorem scheduleTaskNotification_eq (ctx : SchedCtx) (taskId : String)
    (due : Int) (ty : NotificationType) :
    scheduleTaskNotification ctx taskId due ty =
      if !ctx.userPresent || !ctx.settings.enabled || !ctx.isConnectedToSupabase then none
      else if computeScheduledForRaw ctx due ty ≤ ctx.now then none
      else some { task_id := taskId, notification_type := ty,
                  scheduled_for := adjustedFireTime ctx due ty,
                  sent := false, email_sent := false } := rfl

/-- Unfolding step of the retry loop. -/
theorem retryCreate_step (env : SessionEnv) (i fuel : Nat) :
    retryCreate env i (fuel + 1) =
      (let r := createSession env i
       match r.1 with
       | some s => (some s, r.2)
       | none =>
         if fuel = 0 then (none, r.2)
         else
           let rest := retryCreate env (i + 1) fuel
           (rest.1, r.2 ++ [Effect.sleepMs 2000] ++ rest.2)) := rfl

/-- One createSession attempt emits no media acquire or release effect
and at most one HTTP call. -/
theorem createSession_counts (env : SessionEnv) (i : Nat) :
    List.countP isStopTracks (createSession env i).2 = 0 ∧
    List.countP isAcquire (createSession env i).2 = 0 ∧
    List.countP isCreateCall (createSession env i).2 ≤ 1 := by
  cases hk : env.apiKeyPresent <;> cases ho : env.isOnline <;>
    rcases hp : env.provider i with s | ⟨st, msg⟩ <;>
      simp [createSession, hk, ho, hp, isStopTracks, isAcquire, isCreateCall]

/-- The retry loop emits no media effects and at most fuel HTTP calls. -/
theorem retryCreate_counts (env : SessionEnv) :
    ∀ fuel i,
      List.countP isStopTracks (retryCreate env i fuel).2 = 0 ∧
      List.countP isAcquire (retryCreate env i fuel).2 = 0 ∧
      List.countP isCreateCall (retryCreate env i fuel).2 ≤ fuel := by
  intro fuel
  induction fuel with
  | zero => intro i; simp [retryCreate]
  | succ n ih =>
    intro i
    obtain ⟨c1, c2, c3⟩ := createSession_counts env i
    obtain ⟨d1, d2, d3⟩ := ih (i + 1)
    rw [retryCreate_step]
    rcases hcs : (createSession env i).1 with _ | s
    · simp only [hcs]
      by_cases hn : n = 0
      · simp only [hn, if_true]
        exact ⟨c1, c2, by omega⟩
      · simp only [if_neg hn, List.countP_append, List.countP_cons, List.countP_nil,
          isStopTracks, isAcquire, isCreateCall, Bool.false_eq_true, if_false]
        refine ⟨by omega, by omega, by omega⟩
    · simp only [hcs]
      exact ⟨c1, c2, by omega⟩

/-- generateReport emits no media effects. -/
theorem generateReport_counts (env : SessionEnv) (sid : String) (d : Nat) :
    List.countP isStopTracks (generateReport env sid d) = 0 ∧
    List.countP isAcquire (generateReport env sid d) = 0 := by
  unfold generateReport
  split <;> simp [isStopTracks, isAcquire]

/-- endSession releases the local stream exactly when one is held, and
never acquires. -/
theorem endSession_counts (env : SessionEnv) (s : HookState) :
    List.countP isStopTracks (endSession env s).2 =
      (if s.localStream.isSome then 1 else 0) ∧
    List.countP isAcquire (endSession env s).2 = 0 := by
  unfold endSession stopLocalVideo
  rcases hd : s.sessionData with _ | sd <;> rcases hs : s.localStream with _ | u <;>
    cases hk : env.apiKeyPresent <;> cases hu : env.userPresent <;>
      simp [hd, hs, hk, hu, isStopTracks, isAcquire, List.countP_append]

/-- The state endSession leaves behind. -/
theorem endSession_state (env : SessionEnv) (s : HookState) :
    (endSession env s).1 =
      { s with isSessionActive := false, sessionData := none,
               timerRunning := false, localStream := none } := by
  unfold endSession stopLocalVideo
  rcases s.localStream with _ | u <;> rfl

/-- handleEndSession releases the local stream exactly when the hook
holds one, and never acquires. -/
theorem handleEndSession_counts (env : SessionEnv) (c : ComponentState) :
    List.countP isStopTracks (handleEndSession env c).2 =
      (if c.hook.localStream.isSome then 1 else 0) ∧
    List.countP isAcquire (handleEndSession env c).2 = 0 := by
  obtain ⟨h1, h2⟩ := endSession_counts env c.hook
  unfold handleEndSession
  rcases hd : c.hook.sessionData with _ | sd <;>
    rcases hst : c.sessionStartTime with _ | st <;>
      simp [hd, hst, List.countP_append, h1, h2, generateReport_counts]

/-- At the ceiling instant the auto-end tick fires. -/
theorem componentTick_at_ceiling (env : SessionEnv) (h : HookState)
    (ha : h.isSessionActive = true) :
    componentTick env ⟨h, some 0⟩ (maxSessionTime * 1000) =
      handleEndSession env ⟨h, some 0⟩ := by
  have ht : timeRemaining ⟨h, some 0⟩ (maxSessionTime * 1000) = 0 := by
    simp only [timeRemaining, getElapsedTime, ha, if_true, maxSessionTime]
    decide
  unfold componentTick
  simp [ha, ht]

/-- The hook's timer tick never changes the active flag, the session
data, the timer flag or the stream ref. -/
theorem orchestratorTick_iterate_active (n : Nat) (s : HookState) :
    (Nat.iterate orchestratorTick n s).isSessionActive = s.isSessionActive := by
  induction n with
  | zero => rfl
  | succ k ih =>
    rw [Function.iterate_succ_apply']
    unfold orchestratorTick
    split <;> simpa using ih

/-- With the timer armed, n delivered ticks advance the counter by n
and change nothing else. -/
theorem orchestratorTick_iterate_duration (n : Nat) (s : HookState)
    (ht : s.timerRunning = true) :
    Nat.iterate orchestratorTick n s =
      { s with sessionDuration := s.sessionDuration + n } := by
  induction n with
  | zero => simp
  | succ k ih =>
    rw [Function.iterate_succ_apply', ih]
    unfold orchestratorTick
    rw [if_pos (by simpa using ht)]
    simp [Nat.add_assoc]

/-- The adjusted fire time never falls below the raw fire time. -/
theorem adjustedFireTime_ge_raw (ctx : SchedCtx) (due : Int) (ty : NotificationType) :
    computeScheduledForRaw ctx due ty ≤ adjustedFireTime ctx due ty := by
  show computeScheduledForRaw ctx due ty ≤
    (if isQuietHours ctx then
      (if computeScheduledForRaw ctx due ty < quietEndToday ctx then quietEndToday ctx
       else computeScheduledForRaw ctx due ty)
     else computeScheduledForRaw ctx due ty)
  split
  · split <;> omega
  · omega

/-! ## Claims -/

/-- C2 counterexample: with quiet hours 22:00 - 08:00 enabled, a due
instant of 2025-01-09T22:30Z, leadMinutes = 30, and scheduling running
at 12:00 the same day, the raw fire time 22:00 has a time-of-day inside
the claimed half-open overnight window, yet the code persists it
unadjusted at 22:00 (1736460000000), not at that day's 08:00
(1736409600000) as the claim requires: the membership test reads the
wall clock at scheduling time, not the computed instant. -/
theorem C2_counterexample :
    minuteOfDay 1736460000000 = 1320 ∧
    scheduleTaskNotification ctxQuietOn "t1" 1736461800000 NotificationType.reminder =
      some { task_id := "t1", notification_type := NotificationType.reminder,
             scheduled_for := 1736460000000, sent := false, email_sent := false } ∧
    (1736460000000 : Int) ≠ 1736409600000 := by decide

/-- C2 (amended): the quiet-hours membership test is evaluated at the
wall-clock instant at which scheduling runs, not at the computed fire
instant, and the window is inclusive at both ends; when the test
succeeds, the persisted fire time is the maximum of the raw fire time
and quietHours.end on the scheduling day; when it fails, the raw fire
time is persisted unchanged regardless of its own time-of-day. -/
theorem C2_quiet_hours_adjustment (ctx : SchedCtx) (taskId : String)
    (due : Int) (ty : NotificationType)
    (hu : ctx.userPresent = true) (he : ctx.settings.enabled = true)
    (hc : ctx.isConnectedToSupabase = true)
    (hfut : ctx.now < computeScheduledForRaw ctx due ty) :
    scheduleTaskNotification ctx taskId due ty =
      some { task_id := taskId, notification_type := ty,
             scheduled_for :=
               if isQuietHours ctx then
                 max (computeScheduledForRaw ctx due ty) (quietEndToday ctx)
               else computeScheduledForRaw ctx due ty,
             sent := false, email_sent := false } := by
  have hadj : adjustedFireTime ctx due ty =
      (if isQuietHours ctx then
        max (computeScheduledForRaw ctx due ty) (quietEndToday ctx)
      else computeScheduledForRaw ctx due ty) := by
    unfold adjustedFireTime
    cases hq : isQuietHours ctx with
    | false => simp [hq]
    | true =>
      simp only [hq, if_true]
      rcases lt_or_le (computeScheduledForRaw ctx due ty) (quietEndToday ctx) with h | h
      · rw [if_pos h, max_eq_right h.le]
      · rw [if_neg (not_lt.mpr h), max_eq_left h]
  rw [scheduleTaskNotification_eq]
  simp only [hu, he, hc, Bool.not_true, Bool.or_self, Bool.or_false, Bool.false_or]
  rw [if_neg (by simp), if_neg (not_le.mpr hfut), hadj]

/-- C2 witness: the amended theorem applied at the counterexample
scenario, evaluating to the unadjusted 22:00 fire time. -/
theorem C2_witness :
    scheduleTaskNotification ctxQuietOn "t1" 1736461800000 NotificationType.reminder =
      some { task_id := "t1", notification_type := NotificationType.reminder,
             scheduled_for := 1736460000000, sent := false, email_sent := false } :=
  (C2_quiet_hours_adjustment ctxQuietOn "t1" 1736461800000 NotificationType.reminder
    rfl rfl rfl (by decide)).trans (by decide)

/-- C5: with the user present, the connection up, the master flag and
both per-kind flags set, quiet hours disabled, and a due date far
enough in the future, scheduleAll persists exactly one row per kind at
that kind's computed fire time: Reminder at dueAt minus the lead,
Overdue at dueAt plus 60 minutes, CompletionCheck at now plus 24
hours. -/
theorem C5_scheduleAll_three_rows (ctx : SchedCtx) (taskId : String) (due : Int)
    (hu : ctx.userPresent = true) (hc : ctx.isConnectedToSupabase = true)
    (he : ctx.settings.enabled = true) (hov : ctx.settings.overdueEnabled = true)
    (hcr : ctx.settings.completionReminders = true)
    (hq : ctx.settings.quietHours.enabled = false)
    (hfut : ctx.now < due - (ctx.settings.reminderMinutes : Int) * 60000) :
    scheduleAllTaskNotifications ctx taskId (some due) true =
      [ { task_id := taskId, notification_type := NotificationType.reminder,
          scheduled_for := due - (ctx.settings.reminderMinutes : Int) * 60000,
          sent := false, email_sent := false },
        { task_id := taskId, notification_type := NotificationType.overdue,
          scheduled_for := due + 3600000, sent := false, email_sent := false },
        { task_id := taskId, notification_type := NotificationType.completionReminder,
          scheduled_for := ctx.now + 86400000, sent := false, email_sent := false } ] := by
  have hquiet : isQuietHours ctx = false := by simp [isQuietHours, hq]
  have hadj : ∀ ty, adjustedFireTime ctx due ty = computeScheduledForRaw ctx due ty := by
    intro ty
    unfold adjustedFireTime
    simp [hquiet]
  have hr : ∀ ty, ¬(computeScheduledForRaw ctx due ty ≤ ctx.now) := by
    intro ty
    cases ty <;> simp only [computeScheduledForRaw] <;> omega
  have hs : ∀ ty, scheduleTaskNotification ctx taskId due ty =
      some { task_id := taskId, notification_type := ty,
             scheduled_for := computeScheduledForRaw ctx due ty,
             sent := false, email_sent := false } := by
    intro ty
    rw [scheduleTaskNotification_eq, if_neg (by simp [hu, he, hc]), if_neg (hr ty), hadj ty]
  simp [scheduleAllTaskNotifications, he, hov, hcr, hs, computeScheduledForRaw]

/-- C5 witness: the scenario of the claim with dueAt 2025-01-10T09:00Z,
lead 30 minutes, scheduling at 2025-01-09T12:00Z: exactly three rows,
at 08:30Z, 10:00Z and now plus 24 hours. -/
theorem C5_witness :
    scheduleAllTaskNotifications ctxQuietOff "t1" (some 1736499600000) true =
      [ { task_id := "t1", notification_type := NotificationType.reminder,
          scheduled_for := 1736497800000, sent := false, email_sent := false },
        { task_id := "t1", notification_type := NotificationType.overdue,
          scheduled_for := 1736503200000, sent := false, email_sent := false },
        { task_id := "t1", notification_type := NotificationType.completionReminder,
          scheduled_for := 1736510400000, sent := false, email_sent := false } ] :=
  (C5_scheduleAll_three_rows ctxQuietOff "t1" 1736499600000
    rfl rfl rfl rfl rfl rfl (by decide)).trans (by decide)

/-- C6: a computed fire time (after the quiet-hours adjustment) at or
before the scheduling instant yields no persisted row and no error
(the skip is the silent none), and every persisted row carries a
scheduled_for strictly after the scheduling instant, hence at or after
its creation time. -/
theorem C6_past_discard (ctx : SchedCtx) (taskId : String) (due : Int)
    (ty : NotificationType) :
    (adjustedFireTime ctx due ty ≤ ctx.now →
      scheduleTaskNotification ctx taskId due ty = none) ∧
    (∀ row, scheduleTaskNotification ctx taskId due ty = some row →
      ctx.now < row.scheduled_for) := by
  have hge := adjustedFireTime_ge_raw ctx due ty
  rw [scheduleTaskNotification_eq]
  constructor
  · intro hle
    split
    · rfl
    · rw [if_pos (by omega)]
  · intro row hrow
    split at hrow
    · exact absurd hrow (by simp)
    · split at hrow
      · exact absurd hrow (by simp)
      · rename_i hraw
        have h9 := Option.some.inj hrow
        have h10 : row.scheduled_for = adjustedFireTime ctx due ty := by rw [← h9]
        omega

/-- C6 witness: a reminder whose adjusted fire time has already passed
is discarded with no row, and the persisted row of a future reminder is
scheduled strictly after the scheduling instant. -/
theorem C6_witness :
    scheduleTaskNotification ctxQuietOff "t1" 1736420000000 NotificationType.reminder = none ∧
    (1736424000000 : Int) < 1736497800000 :=
  ⟨(C6_past_discard ctxQuietOff "t1" 1736420000000 NotificationType.reminder).1 (by decide),
   (C6_past_discard ctxQuietOff "t1" 1736499600000 NotificationType.reminder).2
     { task_id := "t1", notification_type := NotificationType.reminder,
       scheduled_for := 1736497800000, sent := false, email_sent := false } (by decide)⟩

/-- C10 counterexample: with the user signed in and the connection up
but the master enabled flag OFF, cancelTaskNotifications still deletes
the unsent row of the task; the enabled flag does not gate
cancellation, contradicting the claim. -/
theorem C10_counterexample :
    cancelTaskNotifications ctxEnabledOff [rowT1] "t1" = [] ∧
    ([rowT1] : List TaskNotificationRow) ≠ [] := by decide

/-- C10 (amended): scheduling any kind is a silent no-op when the user
is absent, the connection is down, or the master enabled flag is off;
cancellation is a silent no-op when the user is absent or the
connection is down, but it is NOT gated by the enabled flag: whenever
user and connection are present it deletes exactly the unsent rows of
the task, keeping sent rows and rows of other tasks. -/
theorem C10_silent_noop (ctx : SchedCtx) (taskId : String) (due : Int)
    (ty : NotificationType) (rows : List TaskNotificationRow) :
    ((ctx.userPresent = false ∨ ctx.isConnectedToSupabase = false ∨
        ctx.settings.enabled = false) →
      scheduleTaskNotification ctx taskId due ty = none) ∧
    ((ctx.userPresent = false ∨ ctx.isConnectedToSupabase = false) →
      cancelTaskNotifications ctx rows taskId = rows) ∧
    (ctx.userPresent = true → ctx.isConnectedToSupabase = true →
      ∀ r, r ∈ cancelTaskNotifications ctx rows taskId ↔
        (r ∈ rows ∧ ¬(r.task_id = taskId ∧ r.sent = false))) := by
  refine ⟨?_, ?_, ?_⟩
  · rintro (h | h | h) <;> simp [scheduleTaskNotification, h]
  · rintro (h | h) <;> simp [cancelTaskNotifications, h]
  · intro hu hc r
    simp only [cancelTaskNotifications, hu, hc, Bool.not_true, Bool.or_self, if_false,
      Bool.false_or, Bool.or_false]
    rw [if_neg (by simp)]
    simp [List.mem_filter, not_and, Bool.not_eq_true']
    tauto

/-- C10 witness: the amended statement applied with a missing user (for
both no-ops) and with user and connection present (the unsent row of
the task is deleted even though nothing else changes). -/
theorem C10_witness :
    scheduleTaskNotification ctxNoUser "t1" 1736499600000 NotificationType.reminder = none ∧
    cancelTaskNotifications ctxNoUser [rowT1] "t1" = [rowT1] ∧
    (rowT1 ∈ cancelTaskNotifications ctxQuietOff [rowT1] "t2" ↔
      (rowT1 ∈ [rowT1] ∧ ¬(rowT1.task_id = "t2" ∧ rowT1.sent = false))) :=
  ⟨(C10_silent_noop ctxNoUser "t1" 1736499600000 NotificationType.reminder []).1 (Or.inl rfl),
   (C10_silent_noop ctxNoUser "t1" 0 NotificationType.reminder [rowT1]).2.1 (Or.inl rfl),
   (C10_silent_noop ctxQuietOff "t2" 0 NotificationType.reminder [rowT1]).2.2 rfl rfl rowT1⟩

/-- C1: over a whole lifecycle from the idle state - start failing at
media acquisition, start failing after exhausted provider retries,
start succeeding followed by an explicit end, by a double end, or by
the ceiling-expiry auto-end - the number of track-stopping releases
always equals the number of device acquisitions (exactly once per
acquire), and release on a null or already-released handle is a
no-op. -/
theorem C1_release_per_acquire (env : SessionEnv) (mode : Nat) :
    List.countP isStopTracks (lifecycleTrace env mode) =
      List.countP isAcquire (lifecycleTrace env mode) ∧
    stopLocalVideo none = (none, []) := by
  refine ⟨?_, rfl⟩
  obtain ⟨r1, r2, r3⟩ := retryCreate_counts env 3 0
  unfold lifecycleTrace
  cases hu : env.userPresent with
  | false => simp [startSession, initialHookState, hu]
  | true =>
    cases hm : env.mediaOk with
    | false => simp [startSession, initialHookState, hu, hm]
    | true =>
      rcases hr : (retryCreate env 0 3).1 with _ | sess
      · simp [startSession, initialHookState, hu, hm, hr, stopLocalVideo,
          List.countP_append, isStopTracks, isAcquire, r1, r2]
      · by_cases h0 : mode = 0
        · simp [startSession, initialHookState, hu, hm, hr, h0,
            List.countP_append, isStopTracks, isAcquire, r1, r2, endSession_counts]
        · by_cases h1 : mode = 1
          · simp [startSession, initialHookState, hu, hm, hr, h0, h1,
              List.countP_append, isStopTracks, isAcquire, r1, r2,
              endSession_counts, endSession_state]
          · simp [startSession, initialHookState, hu, hm, hr, h0, h1,
              List.countP_append, isStopTracks, isAcquire, r1, r2,
              componentTick_at_ceiling, handleEndSession_counts]

/-- C3 counterexample: in the environment where every provider attempt
answers 4xx with an already-active-conversation message, startSession
still performs 3 provider attempts separated by two sleeps; the
conflict is not surfaced immediately after the first attempt as the
claim requires. -/
theorem C3_counterexample :
    List.countP isCreateCall (startSession envConflict initialHookState).2.2 = 3 ∧
    List.countP isSleep (startSession envConflict initialHookState).2.2 = 2 ∧
    (3 : Nat) ≠ 1 := by decide

/-- C3 (amended): session creation is attempted up to 3 times with a
fixed 2-second inter-attempt delay and no exponential backoff, and a
4xx already-active-conversation response is retried like any other
failure: each failed attempt surfaces the mapped conflict message as an
error toast and the loop continues until the 3-attempt budget is
spent. -/
theorem C3_conflict_retried (env : SessionEnv)
    (hk : env.apiKeyPresent = true) (ho : env.isOnline = true)
    (hf : ∀ i, ∃ msg, env.provider i = ProviderResult.failure 400 msg ∧
      stringIncludes msg "maximum concurrent conversations" = true) :
    retryCreate env 0 3 =
      (none,
       [Effect.createSessionCall, Effect.errorToast conflictToast, Effect.sleepMs 2000,
        Effect.createSessionCall, Effect.errorToast conflictToast, Effect.sleepMs 2000,
        Effect.createSessionCall, Effect.errorToast conflictToast]) ∧
    (∀ fuel i, List.countP isCreateCall (retryCreate env i fuel).2 ≤ fuel) := by
  have hcs : ∀ i, createSession env i =
      (none, [Effect.createSessionCall, Effect.errorToast conflictToast]) := by
    intro i
    obtain ⟨msg, hmsg, hinc⟩ := hf i
    simp [createSession, hk, ho, hmsg, mapProviderError, hinc, conflictToast]
  constructor
  · have r2 : retryCreate env 2 1 =
        (none, [Effect.createSessionCall, Effect.errorToast conflictToast]) := by
      rw [show (1 : Nat) = 0 + 1 from rfl, retryCreate_step]
      simp [hcs 2]
    have r1 : retryCreate env 1 2 =
        (none, [Effect.createSessionCall, Effect.errorToast conflictToast,
          Effect.sleepMs 2000, Effect.createSessionCall, Effect.errorToast conflictToast]) := by
      rw [show (2 : Nat) = 1 + 1 from rfl, retryCreate_step]
      simp [hcs 1, r2]
    rw [show (3 : Nat) = 2 + 1 from rfl, retryCreate_step]
    simp [hcs 0, r1]
  · exact fun fuel i => (retryCreate_counts env fuel i).2.2

/-- C3 witness: the amended statement at the concrete all-conflict
environment. -/
theorem C3_witness :
    retryCreate envConflict 0 3 =
      (none,
       [Effect.createSessionCall, Effect.errorToast conflictToast, Effect.sleepMs 2000,
        Effect.createSessionCall, Effect.errorToast conflictToast, Effect.sleepMs 2000,
        Effect.createSessionCall, Effect.errorToast conflictToast]) ∧
    List.countP isCreateCall (retryCreate envConflict 0 2).2 ≤ 2 :=
  ⟨(C3_conflict_retried envConflict rfl rfl (fun _ => ⟨_, rfl, by decide⟩)).1,
   (C3_conflict_retried envConflict rfl rfl (fun _ => ⟨_, rfl, by decide⟩)).2 2 0⟩

/-- C4 counterexample: two startSession invocations issued in the same
tick (both reading the idle snapshot) in an environment where the
provider succeeds at once result in TWO createSession calls reaching
the provider, and the second caller succeeds instead of receiving an
AlreadyActive failure. -/
theorem C4_counterexample :
    List.countP isCreateCall (twoStartsSameTick envOk).2.2 = 2 ∧
    (twoStartsSameTick envOk).2.1 = StartOutcome.started ∧
    StartOutcome.started ≠ StartOutcome.alreadyActive := by decide

/-- C4 (amended): the AlreadyActive check reads the state snapshot of
the invoking render, which commits only after a start completes; two
start calls issued in the same tick therefore both pass the guard and
each issues its own provider call (two in total on immediate success),
while a start issued against a committed active state fails as
AlreadyActive with no provider call. -/
theorem C4_guard_not_atomic (env : SessionEnv) (sess : TavusSession)
    (hu : env.userPresent = true) (hm : env.mediaOk = true)
    (hk : env.apiKeyPresent = true) (ho : env.isOnline = true)
    (hp : env.provider 0 = ProviderResult.success sess) :
    (List.countP isCreateCall (twoStartsSameTick env).2.2 = 2 ∧
     (twoStartsSameTick env).1 = StartOutcome.started ∧
     (twoStartsSameTick env).2.1 = StartOutcome.started) ∧
    (∀ s : HookState, s.isSessionActive = true →
      startSession env s = (StartOutcome.alreadyActive, s, [])) := by
  have hc : createSession env 0 = (some sess, [Effect.createSessionCall]) := by
    simp [createSession, hk, ho, hp]
  have hr : retryCreate env 0 3 = (some sess, [Effect.createSessionCall]) := by
    rw [show (3 : Nat) = 2 + 1 from rfl, retryCreate_step]
    simp [hc]
  have hstart : startSession env initialHookState =
      (StartOutcome.started,
       { isSessionActive := true, sessionData := some sess, sessionDuration := 0,
         timerRunning := true, localStream := some () },
       [Effect.acquireStream, Effect.createSessionCall,
        Effect.dbInsertSession sess.session_id]) := by
    simp [startSession, initialHookState, hu, hm, hr]
  refine ⟨?_, ?_⟩
  · simp [twoStartsSameTick, hstart, isCreateCall, List.countP_append, List.countP_cons]
  · intro s hs
    simp [startSession, hs]

/-- C4 witness: the amended statement at the immediate-success
environment, with the sequential second start refused. -/
theorem C4_witness :
    (List.countP isCreateCall (twoStartsSameTick envOk).2.2 = 2 ∧
     (twoStartsSameTick envOk).1 = StartOutcome.started ∧
     (twoStartsSameTick envOk).2.1 = StartOutcome.started) ∧
    startSession envOk hookActive = (StartOutcome.alreadyActive, hookActive, []) :=
  ⟨(C4_guard_not_atomic envOk sampleSession rfl rfl rfl rfl rfl).1,
   (C4_guard_not_atomic envOk sampleSession rfl rfl rfl rfl rfl).2 hookActive rfl⟩

/-- C7 counterexample: one full second past the ceiling crossing,
remaining time is 0, yet any number of firings of the orchestrator's
own scheduled timer (the hook's setInterval) leaves the session active:
the hook owns no ceiling check, so when the presentation layer stops
polling no automatic end occurs. -/
theorem C7_counterexample :
    timeRemaining compActive 901000 = 0 ∧
    (Nat.iterate orchestratorTick 10 hookActive).isSessionActive = true := by decide

/-- C7 (amended): remaining time is max(0, ceiling - elapsed), reaching
exactly 0 at startedAt plus the ceiling and staying positive strictly
before it; the crossing is detected by the VideoConsultation
component's re-render tick, which ends the session when it fires with
remaining time 0; the hook's own timer tick never ends the session, so
no local auto-end occurs if the presentation layer stops polling. -/
theorem C7_ceiling_detection (env : SessionEnv) (c : ComponentState) (st now : Int)
    (ha : c.hook.isSessionActive = true) (hst : c.sessionStartTime = some st) :
    (now = st + maxSessionTime * 1000 → timeRemaining c now = 0) ∧
    (st ≤ now → now < st + maxSessionTime * 1000 → 0 < timeRemaining c now) ∧
    (timeRemaining c now ≤ 0 →
      (componentTick env c now).1.hook.isSessionActive = false) ∧
    (∀ n : Nat, (Nat.iterate orchestratorTick n c.hook).isSessionActive = true) := by
  refine ⟨?_, ?_, ?_, ?_⟩
  · intro hnow
    subst hnow
    simp only [timeRemaining, getElapsedTime, hst, ha, if_true, maxSessionTime]
    rw [show st + (900 : Int) * 1000 - st = 900000 from by omega]
    decide
  · intro hge hlt
    have hfd : (now - st).fdiv 1000 = (now - st) / 1000 :=
      Int.fdiv_eq_ediv _ (by norm_num)
    simp only [timeRemaining, getElapsedTime, hst, ha, if_true, maxSessionTime, hfd]
    rw [lt_max_iff]
    right
    simp only [maxSessionTime] at hlt
    omega
  · intro hle
    unfold componentTick
    rw [if_pos (by simp [ha, hst, hle])]
    unfold handleEndSession
    simp [endSession_state]
  · intro n
    rw [orchestratorTick_iterate_active]
    exact ha

/-- C7 witness: the amended statement at a concrete active state: zero
remaining at the ceiling instant, the component tick past the ceiling
ends the session, and orchestrator ticks alone never do. -/
theorem C7_witness :
    timeRemaining compActive (0 + maxSessionTime * 1000) = 0 ∧
    (componentTick envOk compActive 901000).1.hook.isSessionActive = false ∧
    (Nat.iterate orchestratorTick 5 compActive.hook).isSessionActive = true :=
  ⟨(C7_ceiling_detection envOk compActive 0 (0 + maxSessionTime * 1000) rfl rfl).1 rfl,
   (C7_ceiling_detection envOk compActive 0 901000 rfl rfl).2.2.1 (by decide),
   (C7_ceiling_detection envOk compActive 0 901000 rfl rfl).2.2.2 5⟩

/-- C8: ending twice in succession (the second call reading the state
the first committed) performs provider teardown, database update and
resource release only in the first call - the second is a no-op on
state and effects - and exactly one SessionReport row is created for
the session id across both calls. -/
theorem C8_end_idempotent (env : SessionEnv) (c : ComponentState) (sd : TavusSession)
    (st : Int) (hd : c.hook.sessionData = some sd) (hst : c.sessionStartTime = some st)
    (hs : c.hook.localStream = some ()) (hu : env.userPresent = true)
    (hc2 : env.isConnectedToSupabase = true) (hk : env.apiKeyPresent = true) :
    (handleEndSession env (handleEndSession env c).1).2 = [] ∧
    (handleEndSession env (handleEndSession env c).1).1 = (handleEndSession env c).1 ∧
    List.countP (isReportFor sd.session_id)
      ((handleEndSession env c).2 ++
        (handleEndSession env (handleEndSession env c).1).2) = 1 ∧
    List.countP isProviderEnd
      ((handleEndSession env c).2 ++
        (handleEndSession env (handleEndSession env c).1).2) = 1 ∧
    List.countP isStopTracks
      ((handleEndSession env c).2 ++
        (handleEndSession env (handleEndSession env c).1).2) = 1 ∧
    List.countP isDbUpdate
      ((handleEndSession env c).2 ++
        (handleEndSession env (handleEndSession env c).1).2) = 1 := by
  have he : endSession env c.hook =
      ({ c.hook with
          isSessionActive := false,
          sessionData := none,
          timerRunning := false,
          localStream := none },
       [Effect.providerEndCall sd.session_id,
        Effect.dbUpdateSession sd.session_id c.hook.sessionDuration,
        Effect.stopTracks]) := by
    unfold endSession stopLocalVideo
    simp [hd, hs, hk, hu]
  have h1 : handleEndSession env c =
      ({ hook :=
          { c.hook with
              isSessionActive := false,
              sessionData := none,
              timerRunning := false,
              localStream := none },
         sessionStartTime := none },
       [Effect.providerEndCall sd.session_id,
        Effect.dbUpdateSession sd.session_id c.hook.sessionDuration,
        Effect.stopTracks,
        Effect.reportInsert sd.session_id c.hook.sessionDuration]) := by
    unfold handleEndSession
    rw [he]
    simp [hd, hst, generateReport, hu, hc2]
  have h2 : handleEndSession env
      ({ hook :=
          { c.hook with
              isSessionActive := false,
              sessionData := none,
              timerRunning := false,
              localStream := none },
         sessionStartTime := none } : ComponentState) =
      (({ hook :=
          { c.hook with
              isSessionActive := false,
              sessionData := none,
              timerRunning := false,
              localStream := none },
          sessionStartTime := none } : ComponentState), []) := by
    unfold handleEndSession endSession stopLocalVideo
    simp
  rw [h1]
  simp only [h2, List.countP_append, List.countP_cons, List.countP_nil]
  simp [isReportFor, isProviderEnd, isStopTracks, isDbUpdate]

/-- C8 witness: the idempotence statement at a concrete active session:
the second end is effect-free, and exactly one report row exists for
the session id. -/
theorem C8_witness :
    (handleEndSession envOk (handleEndSession envOk compActive).1).2 = [] ∧
    List.countP (isReportFor "sid1")
      ((handleEndSession envOk compActive).2 ++
        (handleEndSession envOk (handleEndSession envOk compActive).1).2) = 1 :=
  ⟨(C8_end_idempotent envOk compActive sampleSession 0 rfl rfl rfl rfl rfl rfl).1,
   (C8_end_idempotent envOk compActive sampleSession 0 rfl rfl rfl rfl rfl rfl).2.2.1⟩

/-- C9 counterexample: a session whose wall clock advanced 100 seconds
while only 3 timer ticks were delivered (the host was suspended): the
displayed elapsed time is 100 seconds, but the persisted
duration_seconds written by endSession is the tick counter value 3 -
the persisted duration is NOT derived from now minus startedAt. -/
theorem C9_counterexample :
    getElapsedTime ⟨Nat.iterate orchestratorTick 3 hookActive, some 0⟩ 100000 = 100 ∧
    Effect.dbUpdateSession "sid1" 3 ∈
      (endSession envOk (Nat.iterate orchestratorTick 3 hookActive)).2 ∧
    (3 : Nat) ≠ 100 := by decide

/-- C9 (amended): the remaining-time display and the ceiling check
derive elapsed time from now minus startedAt, unaffected by how many
timer ticks were delivered; but the persisted duration_seconds equals
the number of delivered once-per-second ticks, so it undercounts after
a suspend/resume. -/
theorem C9_duration_from_counter (env : SessionEnv) (h : HookState) (sd : TavusSession)
    (n : Nat) (st now : Int)
    (ha : h.isSessionActive = true) (ht : h.timerRunning = true)
    (hd0 : h.sessionDuration = 0) (hsd : h.sessionData = some sd)
    (hu : env.userPresent = true) :
    getElapsedTime ⟨Nat.iterate orchestratorTick n h, some st⟩ now = (now - st).fdiv 1000 ∧
    Effect.dbUpdateSession sd.session_id n ∈
      (endSession env (Nat.iterate orchestratorTick n h)).2 := by
  rw [orchestratorTick_iterate_duration n h ht]
  constructor
  · simp [getElapsedTime, ha]
  · unfold endSession
    simp [hsd, hd0, hu, stopLocalVideo]

/-- C9 witness: the amended statement at the concrete
suspended-session scenario (3 ticks delivered, 100 wall-clock
seconds). -/
theorem C9_witness :
    getElapsedTime ⟨Nat.iterate orchestratorTick 3 hookActive, some 0⟩ 100000 =
      ((100000 : Int) - 0).fdiv 1000 ∧
    Effect.dbUpdateSession "sid1" 3 ∈
      (endSession envOk (Nat.iterate orchestratorTick 3 hookActive)).2 :=
  C9_duration_from_counter envOk hookActive sampleSession 3 0 100000 rfl rfl rfl rfl rfl
